import Mathlib

set_option maxRecDepth 40000

/-!
Verification of the saiteki_qa_bot repository (src/bot.py, src/saiteki_qa_agent.py,
src/store_to_vectordb.py) against its natural-language specification.

The Python code is shallowly embedded: pure computations become Lean functions over
`String`, `List` and `ℤ`; Python dictionaries become association lists; Python
exceptions become `Except PyExn`; the stateful `SaitekiQaAgent` becomes explicit
state passing.  A Python `float` is an IEEE binary64 number, represented here by
its exact value `mant * 2 ^ exp` as an integer pair, and every arithmetic step of
the score-formatting pipeline re-rounds to the nearest representable binary64
value, exactly as the interpreter does.
-/

/-! ## Python float model -/

/-- A Python `float` (IEEE binary64), by its exact value `mant * 2 ^ exp`.
Infinities and NaNs are outside the model; every finite double has this form. -/
structure PyFloat where
  mant : ℤ
  exp : ℤ
deriving DecidableEq, Repr

/-- The exact value of a float as a fraction `(a, b)` with `b > 0`. -/
def floatFrac (x : PyFloat) : ℤ × ℤ :=
  if 0 ≤ x.exp then (x.mant * 2 ^ x.exp.toNat, 1) else (x.mant, 2 ^ (-x.exp).toNat)

/-- Nearest integer to `a / b` (where `b > 0`), ties to the even integer — the tie
rule shared by IEEE round-to-nearest and CPython's `round`. -/
def fracRoundHalfEven (a b : ℤ) : ℤ :=
  let f := Int.fdiv a b
  let r := a - f * b
  if 2 * r < b then f
  else if b < 2 * r then f + 1
  else if f % 2 = 0 then f else f + 1

/-- Scale the positive fraction `a / b` by powers of two into `[1, 2)`:
returns `(a2, b2, e)` with `a / b = (a2 / b2) * 2 ^ e` and `1 ≤ a2 / b2 < 2`.
Fuel-bounded structural recursion; fuel 4400 covers every binary64 exponent. -/
def normLoop : ℕ → ℤ → ℤ → ℤ × ℤ × ℤ
  | 0, a, b => (a, b, 0)
  | fuel + 1, a, b =>
    if a < b then
      let t := normLoop fuel (2 * a) b
      (t.1, t.2.1, t.2.2 - 1)
    else if 2 * b ≤ a then
      let t := normLoop fuel a (2 * b)
      (t.1, t.2.1, t.2.2 + 1)
    else (a, b, 0)

/-- Nearest binary64 value to the fraction `a / b` with `a ≥ 0`, `b > 0`
(round to nearest, ties to even mantissa), for the normal, non-overflowing range —
the similarity scores and percentages handled by the bot lie well inside it. -/
def nearestF64pos (a b : ℤ) : PyFloat :=
  if a = 0 then ⟨0, 0⟩
  else
    let t := normLoop 4400 a b
    ⟨fracRoundHalfEven (t.1 * 2 ^ 52) t.2.1, t.2.2 - 52⟩

/-- Nearest binary64 value to the fraction `a / b` with `b > 0`. -/
def nearestF64 (a b : ℤ) : PyFloat :=
  if a < 0 then
    let p := nearestF64pos (-a) b
    ⟨-p.mant, p.exp⟩
  else nearestF64pos a b

/-- Python `round(x, 2)` on a float: CPython rounds the exact binary value of `x`
to the closest multiple of `1/100` (ties to even) and returns the binary64 value
nearest to that decimal. -/
def pyRound2 (x : PyFloat) : PyFloat :=
  let f := floatFrac x
  nearestF64 (fracRoundHalfEven (100 * f.1) f.2) 100

/-- Binary64 multiplication of a float by `100`: the exact product, re-rounded to
the nearest binary64 value. -/
def pyMul100 (x : PyFloat) : PyFloat :=
  let f := floatFrac x
  nearestF64 (100 * f.1) f.2

/-- Python `int()` on a float value: truncation toward zero. -/
def pyTruncInt (x : PyFloat) : ℤ :=
  let f := floatFrac x
  if f.1 < 0 then -(Int.fdiv (-f.1) f.2) else Int.fdiv f.1 f.2

/-- Embeds `str(int((round(score, 2) * 100)))` from src/bot.py line 44, as the integer it
prints: round the score to two decimals, multiply by 100 in binary64 arithmetic,
truncate toward zero. -/
def scoreDisplay (s : PyFloat) : ℤ :=
  pyTruncInt (pyMul100 (pyRound2 s))

/-- The displayed score string of src/bot.py line 44. -/
def scoreStr (s : PyFloat) : String := toString (scoreDisplay s)

/-- The binary64 float written `0.873` in Python: `3931642474694443 / 2 ^ 52`. -/
def float0p873 : PyFloat := ⟨3931642474694443, -52⟩

/-- The binary64 float written `1.0` in Python. -/
def float1p0 : PyFloat := ⟨1, 0⟩

/-- The binary64 float written `0.005` in Python: `5764607523034235 / 2 ^ 60`. -/
def float0p005 : PyFloat := ⟨5764607523034235, -60⟩

/-! ## Data model

Python dictionaries with string keys become association lists; assignment
`d[k] = v` replaces the value in place when the key is present (dict order is
preserved) and appends the new key at the end otherwise. -/

/-- A value stored in a document's metadata dictionary: a string or a float. -/
inductive MVal where
  | str : String → MVal
  | num : PyFloat → MVal
deriving DecidableEq, Repr

/-- A metadata dictionary: association list in insertion order. -/
abbrev Metadata := List (String × MVal)

/-- Python `d[k] = v` on a dict: replace in place if present, append otherwise. -/
def dictSet : Metadata → String → MVal → Metadata
  | [], k, v => [(k, v)]
  | (k2, v2) :: rest, k, v =>
    if k2 = k then (k, v) :: rest else (k2, v2) :: dictSet rest k v

/-- Python `d.get(k)` / `d[k]` lookup on a dict (`none` models `KeyError`). -/
def mlookup : Metadata → String → Option MVal
  | [], _ => none
  | (k2, v) :: rest, k => if k2 = k then some v else mlookup rest k

/-- A langchain `Document`: page text plus a metadata dictionary. -/
structure Document where
  page_content : String
  metadata : Metadata
deriving DecidableEq, Repr

/-- One entry of `result['source_documents']` as built by `SaitekiQaAgent.run`
(src/saiteki_qa_agent.py lines 115-122): title, url and similarity score. -/
structure SourceRef where
  title : String
  url : String
  score : PyFloat
deriving DecidableEq, Repr

/-- The dict returned by `SaitekiQaAgent.run`: answer text plus source list. -/
structure AnswerResult where
  answer_text : String
  source_documents : List SourceRef
deriving DecidableEq, Repr

/-- A Slack `app_mention` event, with the fields the handler reads:
`user`, `text`, `ts` and the optional `thread_ts`. -/
structure MentionEvent where
  user : String
  text : String
  ts : String
  thread_ts : Option String
deriving DecidableEq, Repr

/-- A Python exception, reduced to what the handler prints: the string that
`f-string` interpolation of `e.args` produces. -/
structure PyExn where
  argsRepr : String
deriving DecidableEq, Repr

/-- The arguments of the `say(...)` call that posts the reply
(src/bot.py line 68). -/
structure SayCall where
  text : String
  thread_ts : String
  reply_broadcast : Bool
deriving DecidableEq, Repr

/-! ## src/bot.py -/

/-- Embeds `_message_builder` (src/bot.py lines 20-46): at-mention line, answer text, and
— when `source_documents` is non-empty — a `関連記事` header followed by one
`- <url|title(score%)>` line per source document, accumulated by the loop. -/
def message_builder (event : MentionEvent) (result : AnswerResult) : String :=
  let message := "<@" ++ event.user ++ ">\n"
  let message := message ++ result.answer_text ++ "\n\n"
  if result.source_documents.length > 0 then
    result.source_documents.foldl
      (fun m d => m ++ ("- <" ++ d.url ++ "|" ++ d.title ++ "(" ++ scoreStr d.score ++ "%)>\n"))
      (message ++ "関連記事(関連度%):\n")
  else message

/-- The single bullet line the loop body of `_message_builder` appends for one
source document (src/bot.py lines 42-45). -/
def bulletLine (d : SourceRef) : String :=
  "- <" ++ d.url ++ "|" ++ d.title ++ "(" ++ scoreStr d.score ++ "%)>\n"

/-- Concatenation of a list of strings, left to right. -/
def concatStrings (l : List String) : String := l.foldl (fun a b => a ++ b) ""

/-- The fallback dict built in the `except` branch of `respond_to_mention`
(src/bot.py lines 58-60): fixed apology marker, raw `e.args`, empty source list. -/
def errorAnswer (e : PyExn) : AnswerResult :=
  { answer_text := "エラーがおきました :しゅん: \n```" ++ e.argsRepr ++ "\n```"
    source_documents := [] }

/-- Python `x or y` on an optional string and a string: `None` and the empty
string are falsy, so both select `y` (src/bot.py line 67). -/
def pyOrStr (x : Option String) (y : String) : String :=
  match x with
  | none => y
  | some t => if t = "" then y else t

/-- Embeds `respond_to_mention` (src/bot.py lines 49-68).  The call `qa.run(event['text'])`
is an external LLM/vector-store effect, so its outcome is passed in explicitly:
`Except.error e` when `run` raised `e`, `Except.ok r` when it returned `r`.
Returns the arguments of the `say` call the handler performs. -/
def respond_to_mention (event : MentionEvent) (runOutcome : Except PyExn AnswerResult) :
    SayCall :=
  let result :=
    match runOutcome with
    | Except.ok r => r
    | Except.error e => errorAnswer e
  let message := message_builder event result
  { text := message
    thread_ts := pyOrStr event.thread_ts event.ts
    reply_broadcast := true }

/-- Environment variables: a partial map from names to values. -/
abbrev Env := String → Option String

/-- The module-level startup check of src/bot.py lines 8-13: both Slack tokens are
read from the environment; a missing one triggers the bare `except`, which prints
and calls `exit()` — modelled by `none` (the process never reaches the app). -/
def botStartupConfig (env : Env) : Option (String × String) :=
  match env "SLACK_BOT_TOKEN", env "SLACK_APP_TOKEN" with
  | some bot, some app => some (bot, app)
  | _, _ => none

/-! ## src/saiteki_qa_agent.py -/

/-- Embeds `PineconeWithScore.similarity_search` (src/saiteki_qa_agent.py lines 19-38).
The call `super().similarity_search_with_score(...)` is the external vector-store
primitive; its result list is passed in.  The loop writes the score into each
document's metadata and appends the document to the output. -/
def similarity_search (docs_with_score : List (Document × PyFloat)) : List Document :=
  docs_with_score.foldl
    (fun docs ds =>
      docs ++ [{ page_content := ds.1.page_content
                 metadata := dictSet ds.1.metadata "score" (MVal.num ds.2) }])
    []

/-- The message of the `Exception` raised when a Pinecone variable is missing
(src/saiteki_qa_agent.py lines 74-76 and src/store_to_vectordb.py lines 33-35). -/
def pineconeConfigMsg : String :=
  "PINECONE_API_KEY, PINECONE_ENV, PINECONE_INDEX_NAME を環境変数に設定してください"

/-- The QA chain built by `initialize_chain`: `pinecone.init`, `OpenAIEmbeddings`,
`PineconeWithScore.from_existing_index`, `as_retriever` and
`RetrievalQA.from_chain_type` are external-service constructions, so the chain is
represented by the configuration that determines it. -/
structure QaChain where
  index_name : String
deriving DecidableEq, Repr

/-- The mutable state of a `SaitekiQaAgent` instance: `qa_chain` (set in
`__init__`, line 59) and the attributes `initialize_chain` assigns (lines 71-73). -/
structure SaitekiQaAgent where
  qa_chain : Option QaChain
  pinecone_api_key : Option String
  pinecone_env : Option String
  pinecone_index_name : Option String
deriving DecidableEq, Repr

/-- Embeds `SaitekiQaAgent.__init__` (src/saiteki_qa_agent.py lines 55-59):
`qa_chain = None`, no other attribute set yet. -/
def SaitekiQaAgent.new : SaitekiQaAgent := ⟨none, none, none, none⟩

/-- Embeds `SaitekiQaAgent.initialize_chain` (src/saiteki_qa_agent.py lines 61-94): read
the three Pinecone variables (raising the fixed `Exception` when one is absent),
then build the QA chain and store it in `qa_chain`. -/
def initialize_chain (env : Env) (a : SaitekiQaAgent) : Except PyExn SaitekiQaAgent :=
  match env "PINECONE_API_KEY", env "PINECONE_ENV", env "PINECONE_INDEX_NAME" with
  | some key, some pcEnv, some name =>
    Except.ok { a with
      pinecone_api_key := some key
      pinecone_env := some pcEnv
      pinecone_index_name := some name
      qa_chain := some ⟨name⟩ }
  | _, _, _ => Except.error ⟨pineconeConfigMsg⟩

/-- The lazy-initialization guard of `SaitekiQaAgent.run`
(src/saiteki_qa_agent.py lines 108-110): initialize the chain when `qa_chain` is
`None`, otherwise reuse it.  The subsequent chain invocation and projection of its
answer (lines 113-124) are external LLM effects, outside the state transition.
The returned number counts the `initialize_chain` invocations this call performs. -/
def SaitekiQaAgent.run (env : Env) (a : SaitekiQaAgent) :
    Except PyExn (SaitekiQaAgent × ℕ) :=
  match a.qa_chain with
  | none =>
    match initialize_chain env a with
    | Except.error e => Except.error e
    | Except.ok a2 => Except.ok (a2, 1)
  | some _ => Except.ok (a, 0)

/-! ## src/store_to_vectordb.py -/

/-- The fixed site whose pages `SaitekiManualHandler` parses, abstracted by what
the two BeautifulSoup queries extract from each fetched page:

* `h2Anchors u` — for each `<h2>` element of the page at `u` (in document order),
  the `href` of its first `<a>` descendant, or `none` when the `<h2>` contains no
  anchor (then `h2.find('a')` is `None` and `.get('href')` raises
  `AttributeError`);
* `articleHrefs u` — the `href`s of the `<a class='article-list-link'>` elements
  of the page at `u` (such anchors carry an `href` attribute on this site). -/
structure Site where
  h2Anchors : String → List (Option String)
  articleHrefs : String → List String

/-- The origin parsed once in `SaitekiManualHandler.__init__`
(src/store_to_vectordb.py lines 76-81). -/
def saitekiOrigin : String := "https://support.saiteki.works"

/-- Embeds `_get_url_by_path` (src/store_to_vectordb.py lines 83-94): re-assemble the
stored parts with the path replaced; for the root-relative paths found on this
site, `geturl()` is concatenation with the origin. -/
def get_url_by_path (path : String) : String := saitekiOrigin ++ path

/-- The `AttributeError` raised by `None.get('href')` when an `<h2>` has no
anchor (src/store_to_vectordb.py line 135). -/
def attributeErrorNoneGet : PyExn :=
  ⟨"AttributeError: NoneType object has no attribute get"⟩

/-- The loop of `_get_page_urls` (src/store_to_vectordb.py lines 134-135):
`paths.append(h2.find('a').get('href'))` for each `<h2>`, raising when a `<h2>`
has no anchor. -/
def collectHrefs : List (Option String) → Except PyExn (List String)
  | [] => Except.ok []
  | none :: _ => Except.error attributeErrorNoneGet
  | some h :: rest =>
    match collectHrefs rest with
    | Except.error e => Except.error e
    | Except.ok hs => Except.ok (h :: hs)

/-- Embeds `_get_page_urls` (src/store_to_vectordb.py lines 118-139): collect the first
anchor of each `<h2>` of the listing page, then resolve each path to a URL. -/
def get_page_urls (site : Site) (url : String) : Except PyExn (List String) :=
  match collectHrefs (site.h2Anchors url) with
  | Except.error e => Except.error e
  | Except.ok paths => Except.ok (paths.map get_url_by_path)

/-- Embeds `__get_article_urls` (src/store_to_vectordb.py lines 141-158): the `href` of
each `<a class='article-list-link'>`, resolved to a URL. -/
def get_article_urls (site : Site) (url : String) : List String :=
  (site.articleHrefs url).map get_url_by_path

/-- The URL-discovery loop of `get_documents_from_urls`
(src/store_to_vectordb.py lines 225-231): `content_urls` starts empty; for each
root URL the sub-section pages are fetched, and each sub-section's article URLs
are appended with `+=`. -/
def discoverLoop (site : Site) : List String → List String → Except PyExn (List String)
  | acc, [] => Except.ok acc
  | acc, url :: rest =>
    match get_page_urls site url with
    | Except.error e => Except.error e
    | Except.ok part_page_urls =>
      discoverLoop site
        (part_page_urls.foldl (fun a p => a ++ get_article_urls site p) acc) rest

/-- The article-URL discovery performed by `get_documents_from_urls` before
documents are generated (src/store_to_vectordb.py lines 213-234). -/
def discover_article_urls (site : Site) (urls : List String) : Except PyExn (List String) :=
  discoverLoop site [] urls

/-- Embeds `generate_document` (src/store_to_vectordb.py lines 160-178): the page at
`url` has `<title>` text `titleText` and visible text `bodyText`; the title is
the part before the first `' – '`, and the metadata has exactly the keys
`source` and `title`. -/
def generate_document (url titleText bodyText : String) : Document :=
  { page_content := bodyText
    metadata := [("source", MVal.str url),
                 ("title", MVal.str ((titleText.splitOn " – ").headD ""))] }

/-- The configuration a `VectorStore` instance holds after `__init__`. -/
structure VectorStore where
  pinecone_api_key : String
  pinecone_env : String
  pinecone_index_name : String
deriving DecidableEq, Repr

/-- Embeds `VectorStore.__init__` (src/store_to_vectordb.py lines 24-41): read the three
Pinecone variables, raising the fixed `Exception` when one is absent; the
`pinecone.init` call is an external effect. -/
def VectorStore.create (env : Env) : Except PyExn VectorStore :=
  match env "PINECONE_API_KEY", env "PINECONE_ENV", env "PINECONE_INDEX_NAME" with
  | some key, some pcEnv, some name => Except.ok ⟨key, pcEnv, name⟩
  | _, _, _ => Except.error ⟨pineconeConfigMsg⟩

/-- The sub-section URLs discovered on the listing page at `u` when every `<h2>`
there carries an anchor: each anchor path resolved against the origin. -/
def subsectionUrls (site : Site) (u : String) : List String :=
  ((site.h2Anchors u).filterMap id).map get_url_by_path

/-! ## Helper lemmas -/

theorem concatStrings_nil : concatStrings [] = "" := rfl

theorem string_foldl_concat :
    ∀ (l : List String) (init : String),
      l.foldl (fun a b => a ++ b) init = init ++ concatStrings l
  | [], init => by simp [concatStrings, String.append_empty]
  | x :: l, init => by
    rw [List.foldl_cons, string_foldl_concat l (init ++ x)]
    show _ = init ++ (x :: l).foldl (fun a b => a ++ b) ""
    rw [List.foldl_cons, String.empty_append, string_foldl_concat l x,
      String.append_assoc]

theorem string_foldl_map {α : Type} (f : α → String) (l : List α) (init : String) :
    l.foldl (fun m d => m ++ f d) init = init ++ concatStrings (l.map f) := by
  rw [← List.foldl_map, string_foldl_concat]

theorem list_foldl_append_flat {α β : Type} (f : α → List β) :
    ∀ (l : List α) (init : List β),
      l.foldl (fun acc a => acc ++ f a) init = init ++ l.flatMap f
  | [], init => by simp
  | a :: l, init => by
    rw [List.foldl_cons, list_foldl_append_flat f l (init ++ f a),
      List.flatMap_cons, List.append_assoc]

theorem list_foldl_append_singleton {α β : Type} (f : α → β) :
    ∀ (l : List α) (init : List β),
      l.foldl (fun acc a => acc ++ [f a]) init = init ++ l.map f
  | [], init => by simp
  | a :: l, init => by
    rw [List.foldl_cons, list_foldl_append_singleton f l (init ++ [f a]),
      List.map_cons, List.append_assoc, List.singleton_append]

theorem count_flatMap_eq_sum {α : Type} [BEq β] (a : β) (f : α → List β) :
    ∀ l : List α, (l.flatMap f).count a = (l.map fun x => (f x).count a).sum
  | [] => rfl
  | x :: l => by
    rw [List.flatMap_cons, List.count_append, List.map_cons, List.sum_cons,
      count_flatMap_eq_sum a f l]

theorem mlookup_dictSet_self :
    ∀ (m : Metadata) (k : String) (v : MVal), mlookup (dictSet m k v) k = some v
  | [], k, v => by simp [dictSet, mlookup]
  | (k2, v2) :: rest, k, v => by
    by_cases h : k2 = k
    · simp [dictSet, h, mlookup]
    · simp [dictSet, h, mlookup, mlookup_dictSet_self rest k v]

theorem mlookup_dictSet_ne :
    ∀ (m : Metadata) (k k2 : String) (v : MVal),
      k2 ≠ k → mlookup (dictSet m k v) k2 = mlookup m k2
  | [], k, k2, v, h => by simp [dictSet, mlookup, h, Ne.symm h]
  | (k3, v3) :: rest, k, k2, v, h => by
    by_cases h3 : k3 = k
    · subst h3
      simp [dictSet, mlookup, h, Ne.symm h]
    · by_cases h32 : k3 = k2
      · simp [dictSet, h3, mlookup, h32, h]
      · simp [dictSet, h3, mlookup, h32, h, mlookup_dictSet_ne rest k k2 v h]

theorem similarity_search_eq_map (inp : List (Document × PyFloat)) :
    similarity_search inp =
      inp.map (fun p => { page_content := p.1.page_content
                          metadata := dictSet p.1.metadata "score" (MVal.num p.2) }) := by
  unfold similarity_search
  rw [list_foldl_append_singleton
    (fun p : Document × PyFloat =>
      ({ page_content := p.1.page_content
         metadata := dictSet p.1.metadata "score" (MVal.num p.2) } : Document)),
    List.nil_append]

theorem collectHrefs_all_some :
    ∀ l : List (Option String), (∀ x ∈ l, x.isSome) →
      collectHrefs l = Except.ok (l.filterMap id)
  | [], _ => rfl
  | none :: l, h => absurd (h none (by simp)) (by simp)
  | some a :: l, h => by
    simp only [collectHrefs, collectHrefs_all_some l (fun x hx => h x (by simp [hx]))]
    simp [List.filterMap_cons]

theorem collectHrefs_has_none :
    ∀ l : List (Option String), none ∈ l →
      collectHrefs l = Except.error attributeErrorNoneGet
  | [], h => absurd h (by simp)
  | none :: l, _ => rfl
  | some a :: l, h => by
    have hl : none ∈ l := by simpa using h
    simp [collectHrefs, collectHrefs_has_none l hl]

theorem flatMap_nil_fun {α β : Type} :
    ∀ l : List α, (l.flatMap fun _ => ([] : List β)) = []
  | [] => rfl
  | a :: l => by rw [List.flatMap_cons, flatMap_nil_fun l]; rfl

theorem discoverLoop_closed_form (site : Site) :
    ∀ (urls : List String) (acc : List String),
      (∀ u ∈ urls, ∀ x ∈ site.h2Anchors u, x.isSome) →
      discoverLoop site acc urls =
        Except.ok (acc ++ urls.flatMap (fun u =>
          (subsectionUrls site u).flatMap (get_article_urls site)))
  | [], acc, _ => by simp [discoverLoop]
  | url :: rest, acc, h => by
    have h1 : ∀ x ∈ site.h2Anchors url, x.isSome := fun x hx => h url (by simp) x hx
    have h2 : collectHrefs (site.h2Anchors url) =
        Except.ok ((site.h2Anchors url).filterMap id) :=
      collectHrefs_all_some _ h1
    have h3 : ∀ u ∈ rest, ∀ x ∈ site.h2Anchors u, x.isSome :=
      fun u hu x hx => h u (by simp [hu]) x hx
    simp only [discoverLoop, get_page_urls, h2]
    rw [list_foldl_append_flat (get_article_urls site),
      discoverLoop_closed_form site rest _ h3]
    simp [subsectionUrls, List.flatMap_cons, List.append_assoc]

/-! ## Claims -/

/-- Claim C1: for every `AnswerResult`, the reply built by `_message_builder` is
the mention-and-answer header followed by a `関連記事` section exactly when
`source_documents` is non-empty, and the section consists of exactly one bullet
line `- <url|title(score%)>` per source document, in order. -/
theorem message_builder_related_articles (event : MentionEvent) (result : AnswerResult) :
    message_builder event result =
      "<@" ++ event.user ++ ">\n" ++ result.answer_text ++ "\n\n" ++
        (if 0 < result.source_documents.length then
          "関連記事(関連度%):\n" ++ concatStrings (result.source_documents.map bulletLine)
        else "") ∧
    (result.source_documents.map bulletLine).length = result.source_documents.length ∧
    ∀ d ∈ result.source_documents,
      bulletLine d = "- <" ++ d.url ++ "|" ++ d.title ++ "(" ++ scoreStr d.score ++ "%)>\n" := by
  refine ⟨?_, by simp, fun d _ => rfl⟩
  by_cases h : 0 < result.source_documents.length
  · simp only [message_builder, if_pos h]
    rw [string_foldl_map, String.append_assoc]
    rfl
  · simp only [message_builder, if_neg h]
    exact (String.append_empty _).symm

/-- Witness for claim C1 at a concrete event and two source documents. -/
theorem message_builder_related_articles_witness :
    message_builder ⟨"U07", "question", "1700.1", none⟩
        ⟨"answer body",
         [⟨"記事A", "https://support.saiteki.works/a1", float0p873⟩,
          ⟨"記事B", "https://support.saiteki.works/a2", float1p0⟩]⟩ =
      "<@" ++ "U07" ++ ">\n" ++ "answer body" ++ "\n\n" ++
        ("関連記事(関連度%):\n" ++
          concatStrings
            [bulletLine ⟨"記事A", "https://support.saiteki.works/a1", float0p873⟩,
             bulletLine ⟨"記事B", "https://support.saiteki.works/a2", float1p0⟩]) ∧
    bulletLine ⟨"記事A", "https://support.saiteki.works/a1", float0p873⟩ =
      "- <" ++ "https://support.saiteki.works/a1" ++ "|" ++ "記事A" ++ "(" ++
        scoreStr float0p873 ++ "%)>\n" := by
  refine ⟨?_, ?_⟩
  · have h := (message_builder_related_articles ⟨"U07", "question", "1700.1", none⟩
      ⟨"answer body",
       [⟨"記事A", "https://support.saiteki.works/a1", float0p873⟩,
        ⟨"記事B", "https://support.saiteki.works/a2", float1p0⟩]⟩).1
    rw [h]
    rfl
  · exact (message_builder_related_articles ⟨"U07", "question", "1700.1", none⟩
      ⟨"answer body",
       [⟨"記事A", "https://support.saiteki.works/a1", float0p873⟩,
        ⟨"記事B", "https://support.saiteki.works/a2", float1p0⟩]⟩).2.2
      ⟨"記事A", "https://support.saiteki.works/a1", float0p873⟩ (by simp)

/-- Claim C2: the displayed similarity score is computed by rounding the float to
two decimals first and scaling to an integer percentage second (the binary64
pipeline of src/bot.py line 44); float `0.873` displays as `"87"`, `1.0` as
`"100"`, `0.005` as `"1"`.  `scoreStr` is a pure function of the exact float
value, hence deterministic. -/
theorem score_display_values :
    scoreStr float0p873 = "87" ∧ scoreStr float1p0 = "100" ∧ scoreStr float0p005 = "1" ∧
    ∀ s : PyFloat, scoreStr s = toString (pyTruncInt (pyMul100 (pyRound2 s))) :=
  ⟨by decide, by decide, by decide, fun _ => rfl⟩

/-- Claim C3: when `run` raises, the handler still posts a reply; its text is the
at-mention followed by the fixed apology preamble and the raw exception
arguments, built by `_message_builder` from an empty source list — hence no
`関連記事` section is appended. -/
theorem error_reply (event : MentionEvent) (e : PyExn) :
    (respond_to_mention event (Except.error e)).text =
      "<@" ++ event.user ++ ">\n" ++
        ("エラーがおきました :しゅん: \n```" ++ e.argsRepr ++ "\n```") ++ "\n\n" ∧
    (errorAnswer e).source_documents = [] ∧
    (respond_to_mention event (Except.error e)).text =
      message_builder event (errorAnswer e) :=
  ⟨rfl, rfl, rfl⟩

/-- Counterexample to claim C4 as stated: an event that carries
`thread_ts = ""` (Python treats the empty string as falsy in `x or y`) is
answered in the thread of the event's own `ts`, not of the carried
`thread_ts`. -/
theorem thread_ts_empty_not_reused :
    (respond_to_mention ⟨"U07", "q", "1700000000.000100", some ""⟩
        (Except.ok ⟨"ans", []⟩)).thread_ts = "1700000000.000100" ∧
    ("1700000000.000100" : String) ≠ "" :=
  ⟨rfl, by decide⟩

/-- Claim C4 (amended): a reply is always threaded with `reply_broadcast`
enabled; an event carrying a non-empty `thread_ts = T` is answered with
`thread_ts = T`, while an event with no `thread_ts` — or, because `or` tests
falsiness, an empty one — is answered with `thread_ts` equal to the event's own
`ts`. -/
theorem thread_targeting (event : MentionEvent) (runOutcome : Except PyExn AnswerResult) :
    (∀ t, event.thread_ts = some t → t ≠ "" →
      (respond_to_mention event runOutcome).thread_ts = t) ∧
    (event.thread_ts = none →
      (respond_to_mention event runOutcome).thread_ts = event.ts) ∧
    (event.thread_ts = some "" →
      (respond_to_mention event runOutcome).thread_ts = event.ts) ∧
    (respond_to_mention event runOutcome).reply_broadcast = true := by
  refine ⟨fun t ht hne => ?_, fun ht => ?_, fun ht => ?_, rfl⟩
  · simp [respond_to_mention, pyOrStr, ht, hne]
  · simp [respond_to_mention, pyOrStr, ht]
  · simp [respond_to_mention, pyOrStr, ht]

/-- Witness for claim C4 at concrete events: an event already in a thread and an
event starting one. -/
theorem thread_targeting_witness :
    (respond_to_mention ⟨"U07", "q", "111.222", some "333.444"⟩
        (Except.ok ⟨"a", []⟩)).thread_ts = "333.444" ∧
    (respond_to_mention ⟨"U07", "q", "111.222", none⟩
        (Except.ok ⟨"a", []⟩)).thread_ts = "111.222" ∧
    (respond_to_mention ⟨"U07", "q", "111.222", some "333.444"⟩
        (Except.ok ⟨"a", []⟩)).reply_broadcast = true :=
  ⟨(thread_targeting ⟨"U07", "q", "111.222", some "333.444"⟩
      (Except.ok ⟨"a", []⟩)).1 "333.444" rfl (by decide),
   (thread_targeting ⟨"U07", "q", "111.222", none⟩
      (Except.ok ⟨"a", []⟩)).2.1 rfl,
   (thread_targeting ⟨"U07", "q", "111.222", some "333.444"⟩
      (Except.ok ⟨"a", []⟩)).2.2.2⟩

/-- Claim C5: starting from the `__init__` state, the first `run` performs the
initialization exactly once and stores the chain; a second `run` performs no
initialization and returns the same agent state with the same chain; and from
any state whose `qa_chain` is set, `run` never clears it. -/
theorem answer_engine_initializes_once (env : Env) (key pcEnv name : String)
    (hk : env "PINECONE_API_KEY" = some key)
    (he : env "PINECONE_ENV" = some pcEnv)
    (hn : env "PINECONE_INDEX_NAME" = some name) :
    ∃ a1 : SaitekiQaAgent,
      SaitekiQaAgent.run env SaitekiQaAgent.new = Except.ok (a1, 1) ∧
      a1.qa_chain = some ⟨name⟩ ∧
      SaitekiQaAgent.run env a1 = Except.ok (a1, 0) ∧
      ∀ (a : SaitekiQaAgent) (c : QaChain), a.qa_chain = some c →
        SaitekiQaAgent.run env a = Except.ok (a, 0) := by
  refine ⟨⟨some ⟨name⟩, some key, some pcEnv, some name⟩, ?_, rfl, rfl, ?_⟩
  · simp [SaitekiQaAgent.run, SaitekiQaAgent.new, initialize_chain, hk, he, hn]
  · intro a c hc
    simp [SaitekiQaAgent.run, hc]

/-- Witness for claim C5 at a concrete environment. -/
theorem answer_engine_initializes_once_witness :
    ∃ a1 : SaitekiQaAgent,
      SaitekiQaAgent.run
          (fun k => if k = "PINECONE_API_KEY" then some "pk"
            else if k = "PINECONE_ENV" then some "pe"
            else if k = "PINECONE_INDEX_NAME" then some "idx" else none)
          SaitekiQaAgent.new = Except.ok (a1, 1) ∧
      a1.qa_chain = some ⟨"idx"⟩ ∧
      SaitekiQaAgent.run
          (fun k => if k = "PINECONE_API_KEY" then some "pk"
            else if k = "PINECONE_ENV" then some "pe"
            else if k = "PINECONE_INDEX_NAME" then some "idx" else none)
          a1 = Except.ok (a1, 0) ∧
      ∀ (a : SaitekiQaAgent) (c : QaChain), a.qa_chain = some c →
        SaitekiQaAgent.run
            (fun k => if k = "PINECONE_API_KEY" then some "pk"
              else if k = "PINECONE_ENV" then some "pe"
              else if k = "PINECONE_INDEX_NAME" then some "idx" else none)
            a = Except.ok (a, 0) :=
  answer_engine_initializes_once _ "pk" "pe" "idx" rfl rfl rfl

/-- Claim C6: a freshly scraped document's metadata has exactly the keys
`source` and `title` and no `score`, while every document returned by the
score-carrying similarity search has a `score` entry in its metadata. -/
theorem score_entry_iff_from_search (url titleText bodyText : String)
    (inp : List (Document × PyFloat)) :
    (generate_document url titleText bodyText).metadata.map Prod.fst =
      ["source", "title"] ∧
    mlookup (generate_document url titleText bodyText).metadata "score" = none ∧
    ∀ d ∈ similarity_search inp, (mlookup d.metadata "score").isSome := by
  refine ⟨rfl, ?_, ?_⟩
  · simp only [generate_document, mlookup]
    rw [if_neg (by decide), if_neg (by decide)]
  · intro d hd
    rw [similarity_search_eq_map] at hd
    obtain ⟨p, _, rfl⟩ := List.mem_map.1 hd
    simp [mlookup_dictSet_self]

/-- Witness for claim C6 at a concrete scraped page and a concrete search
result. -/
theorem score_entry_iff_from_search_witness :
    (generate_document "https://support.saiteki.works/a1"
        "工程デザイナーご利用の流れ – saiteki.works サポートサイト"
        "body text").metadata.map Prod.fst = ["source", "title"] ∧
    mlookup (generate_document "https://support.saiteki.works/a1"
        "工程デザイナーご利用の流れ – saiteki.works サポートサイト"
        "body text").metadata "score" = none ∧
    ∀ d ∈ similarity_search
        [(⟨"body text", [("source", MVal.str "https://support.saiteki.works/a1"),
                         ("title", MVal.str "工程デザイナーご利用の流れ")]⟩, float0p873)],
      (mlookup d.metadata "score").isSome :=
  score_entry_iff_from_search "https://support.saiteki.works/a1"
    "工程デザイナーご利用の流れ – saiteki.works サポートサイト" "body text"
    [(⟨"body text", [("source", MVal.str "https://support.saiteki.works/a1"),
                     ("title", MVal.str "工程デザイナーご利用の流れ")]⟩, float0p873)]

/-- Claim C7: a missing required environment variable is fatal where the
component starts: a missing Slack token makes the serving process exit while the
module loads; a missing Pinecone variable makes ingestion's `VectorStore`
constructor and the answer engine's chain construction (hence the first `run`)
raise the fixed configuration exception before any work. -/
theorem missing_env_variable_fatal (env : Env) :
    ((env "SLACK_BOT_TOKEN" = none ∨ env "SLACK_APP_TOKEN" = none) →
      botStartupConfig env = none) ∧
    ((env "PINECONE_API_KEY" = none ∨ env "PINECONE_ENV" = none ∨
        env "PINECONE_INDEX_NAME" = none) →
      (∀ a : SaitekiQaAgent, initialize_chain env a = Except.error ⟨pineconeConfigMsg⟩) ∧
      VectorStore.create env = Except.error ⟨pineconeConfigMsg⟩ ∧
      (∀ a : SaitekiQaAgent, a.qa_chain = none →
        SaitekiQaAgent.run env a = Except.error ⟨pineconeConfigMsg⟩)) := by
  constructor
  · intro h
    rcases hb : env "SLACK_BOT_TOKEN" with _ | b <;>
      rcases ha : env "SLACK_APP_TOKEN" with _ | a <;>
        simp_all [botStartupConfig]
  · intro h
    have hic : ∀ a : SaitekiQaAgent,
        initialize_chain env a = Except.error ⟨pineconeConfigMsg⟩ := by
      intro a
      rcases h1 : env "PINECONE_API_KEY" with _ | k <;>
        rcases h2 : env "PINECONE_ENV" with _ | pe <;>
          rcases h3 : env "PINECONE_INDEX_NAME" with _ | n <;>
            simp_all [initialize_chain]
    have hvc : VectorStore.create env = Except.error ⟨pineconeConfigMsg⟩ := by
      rcases h1 : env "PINECONE_API_KEY" with _ | k <;>
        rcases h2 : env "PINECONE_ENV" with _ | pe <;>
          rcases h3 : env "PINECONE_INDEX_NAME" with _ | n <;>
            simp_all [VectorStore.create]
    refine ⟨hic, hvc, fun a ha => ?_⟩
    simp [SaitekiQaAgent.run, ha, hic a]

/-- Witness for claim C7: the empty environment. -/
theorem missing_env_variable_fatal_witness :
    botStartupConfig (fun _ => none) = none ∧
    initialize_chain (fun _ => none) SaitekiQaAgent.new =
      Except.error ⟨pineconeConfigMsg⟩ ∧
    VectorStore.create (fun _ => none) = Except.error ⟨pineconeConfigMsg⟩ ∧
    SaitekiQaAgent.run (fun _ => none) SaitekiQaAgent.new =
      Except.error ⟨pineconeConfigMsg⟩ :=
  ⟨(missing_env_variable_fatal (fun _ => none)).1 (Or.inl rfl),
   ((missing_env_variable_fatal (fun _ => none)).2 (Or.inl rfl)).1 SaitekiQaAgent.new,
   ((missing_env_variable_fatal (fun _ => none)).2 (Or.inl rfl)).2.1,
   ((missing_env_variable_fatal (fun _ => none)).2 (Or.inl rfl)).2.2
     SaitekiQaAgent.new rfl⟩

/-- Claim C8: when every listing page of the given roots is well-formed (each
`<h2>` carries an anchor), URL discovery returns exactly the concatenation, in
root order, of each root's sub-sections' article URLs in sub-section order —
and performs no duplicate suppression: every occurrence of an article URL under
every sub-section is counted in the result. -/
theorem discovery_order_no_dedup (site : Site) (urls : List String)
    (h : ∀ u ∈ urls, ∀ x ∈ site.h2Anchors u, x.isSome) :
    discover_article_urls site urls =
      Except.ok (urls.flatMap (fun u =>
        (subsectionUrls site u).flatMap (get_article_urls site))) ∧
    ∀ a : String,
      (urls.flatMap (fun u =>
        (subsectionUrls site u).flatMap (get_article_urls site))).count a =
      (urls.map (fun u =>
        ((subsectionUrls site u).map
          (fun p => (get_article_urls site p).count a)).sum)).sum := by
  refine ⟨?_, fun a => ?_⟩
  · unfold discover_article_urls
    rw [discoverLoop_closed_form site urls [] h, List.nil_append]
  · simp only [count_flatMap_eq_sum]

/-- Witness for claim C8: one root with two sub-sections; the article `/a1` is
linked from both sub-sections and appears twice in the result, after `/a2`. -/
theorem discovery_order_no_dedup_witness :
    discover_article_urls
        ⟨fun u => if u = "https://support.saiteki.works/hc/root"
            then [some "/s1", some "/s2"] else [],
         fun u => if u = "https://support.saiteki.works/s1" then ["/a1", "/a2"]
            else if u = "https://support.saiteki.works/s2" then ["/a1"] else []⟩
        ["https://support.saiteki.works/hc/root"] =
      Except.ok ["https://support.saiteki.works/a1",
                 "https://support.saiteki.works/a2",
                 "https://support.saiteki.works/a1"] := by
  have h := (discovery_order_no_dedup
    ⟨fun u => if u = "https://support.saiteki.works/hc/root"
        then [some "/s1", some "/s2"] else [],
     fun u => if u = "https://support.saiteki.works/s1" then ["/a1", "/a2"]
        else if u = "https://support.saiteki.works/s2" then ["/a1"] else []⟩
    ["https://support.saiteki.works/hc/root"] (by decide)).1
  rw [h]
  rfl

/-- Counterexample to claim C9 as stated: a root whose listing page has zero
anchors inside `<h2>` headers — because its single `<h2>` contains no anchor —
makes discovery raise the `AttributeError` of `None.get('href')` instead of
returning an empty sequence. -/
theorem discovery_anchorless_h2_raises :
    ((⟨fun _ => [none], fun _ => []⟩ : Site).h2Anchors
        "https://support.saiteki.works/hc/root").filterMap id = [] ∧
    discover_article_urls (⟨fun _ => [none], fun _ => []⟩ : Site)
        ["https://support.saiteki.works/hc/root"] =
      Except.error attributeErrorNoneGet :=
  ⟨rfl, rfl⟩

/-- Claim C9 (amended): a root whose listing page has zero `<h2>` headers, or
whose `<h2>`s all carry anchors while no sub-section page has an article-link
anchor, yields an empty sequence without error; but a listing page containing a
`<h2>` without an anchor makes discovery raise an `AttributeError`. -/
theorem discovery_zero_matches_empty (site : Site) (u : String) :
    (site.h2Anchors u = [] → discover_article_urls site [u] = Except.ok []) ∧
    ((∀ x ∈ site.h2Anchors u, x.isSome) → (∀ p, site.articleHrefs p = []) →
      discover_article_urls site [u] = Except.ok []) ∧
    (none ∈ site.h2Anchors u →
      discover_article_urls site [u] = Except.error attributeErrorNoneGet) := by
  refine ⟨fun h => ?_, fun h1 h2 => ?_, fun h => ?_⟩
  · simp [discover_article_urls, discoverLoop, get_page_urls, h, collectHrefs]
  · have hh : ∀ v ∈ [u], ∀ x ∈ site.h2Anchors v, x.isSome := by
      intro v hv x hx
      have hvu : v = u := List.mem_singleton.1 hv
      subst hvu
      exact h1 x hx
    unfold discover_article_urls
    rw [discoverLoop_closed_form site [u] [] hh]
    simp [get_article_urls, h2, flatMap_nil_fun]
  · simp [discover_article_urls, discoverLoop, get_page_urls,
      collectHrefs_has_none _ h]

/-- Witness for claim C9: a listing page with no `<h2>`, a listing page whose
sub-section has no article anchors, and a listing page with an anchor-less
`<h2>`. -/
theorem discovery_zero_matches_empty_witness :
    discover_article_urls (⟨fun _ => [], fun _ => []⟩ : Site)
        ["https://support.saiteki.works/hc/root"] = Except.ok [] ∧
    discover_article_urls (⟨fun _ => [some "/s1"], fun _ => []⟩ : Site)
        ["https://support.saiteki.works/hc/root"] = Except.ok [] ∧
    discover_article_urls (⟨fun _ => [some "/s1", none], fun _ => []⟩ : Site)
        ["https://support.saiteki.works/hc/root"] =
      Except.error attributeErrorNoneGet :=
  ⟨(discovery_zero_matches_empty (⟨fun _ => [], fun _ => []⟩ : Site)
      "https://support.saiteki.works/hc/root").1 rfl,
   (discovery_zero_matches_empty (⟨fun _ => [some "/s1"], fun _ => []⟩ : Site)
      "https://support.saiteki.works/hc/root").2.1 (by decide) (fun _ => rfl),
   (discovery_zero_matches_empty (⟨fun _ => [some "/s1", none], fun _ => []⟩ : Site)
      "https://support.saiteki.works/hc/root").2.2 (by decide)⟩

/-- Claim C10: `PineconeWithScore.similarity_search` returns exactly the
documents of the underlying scored search, in order and count, each modified
only by writing the `score` key into its metadata: `page_content` and every
other metadata entry are unchanged. -/
theorem similarity_search_only_adds_score (inp : List (Document × PyFloat))
    (d : Document) (s : PyFloat) :
    similarity_search inp =
      inp.map (fun p => { page_content := p.1.page_content
                          metadata := dictSet p.1.metadata "score" (MVal.num p.2) }) ∧
    (similarity_search inp).length = inp.length ∧
    ({ page_content := d.page_content
       metadata := dictSet d.metadata "score" (MVal.num s) } : Document).page_content =
      d.page_content ∧
    mlookup (dictSet d.metadata "score" (MVal.num s)) "score" = some (MVal.num s) ∧
    ∀ k, k ≠ "score" →
      mlookup (dictSet d.metadata "score" (MVal.num s)) k = mlookup d.metadata k := by
  refine ⟨similarity_search_eq_map inp, ?_, rfl,
    mlookup_dictSet_self d.metadata "score" (MVal.num s),
    fun k hk => mlookup_dictSet_ne d.metadata "score" k (MVal.num s) hk⟩
  rw [similarity_search_eq_map, List.length_map]

/-- Witness for claim C10 at a concrete one-element search result, checking the
`title` entry is untouched and the `score` entry is added. -/
theorem similarity_search_only_adds_score_witness :
    similarity_search
        [(⟨"text", [("source", MVal.str "u"), ("title", MVal.str "t")]⟩, float0p873)] =
      [⟨"text", [("source", MVal.str "u"), ("title", MVal.str "t"),
                 ("score", MVal.num float0p873)]⟩] ∧
    mlookup (dictSet ([("source", MVal.str "u"), ("title", MVal.str "t")] : Metadata)
        "score" (MVal.num float0p873)) "score" = some (MVal.num float0p873) ∧
    mlookup (dictSet ([("source", MVal.str "u"), ("title", MVal.str "t")] : Metadata)
        "score" (MVal.num float0p873)) "title" =
      mlookup [("source", MVal.str "u"), ("title", MVal.str "t")] "title" :=
  ⟨((similarity_search_only_adds_score
      [(⟨"text", [("source", MVal.str "u"), ("title", MVal.str "t")]⟩, float0p873)]
      ⟨"text", [("source", MVal.str "u"), ("title", MVal.str "t")]⟩ float0p873).1).trans rfl,
   (similarity_search_only_adds_score
      [(⟨"text", [("source", MVal.str "u"), ("title", MVal.str "t")]⟩, float0p873)]
      ⟨"text", [("source", MVal.str "u"), ("title", MVal.str "t")]⟩ float0p873).2.2.2.1,
   (similarity_search_only_adds_score
      [(⟨"text", [("source", MVal.str "u"), ("title", MVal.str "t")]⟩, float0p873)]
      ⟨"text", [("source", MVal.str "u"), ("title", MVal.str "t")]⟩ float0p873).2.2.2.2
     "title" (by decide)⟩
